import Mathlib

/-!
Shallow embedding of the AFib dashboard's client-side data-derivation and
filtering engine (src/app.js): date handling, the category/stage classifier,
facet building, the 2026 update feed, the readout feed, and the search/filter
predicate.  JavaScript strings are modelled as Lean `String`s; the JS string
operations used by the code (`toLowerCase`, `includes`, `trim`, codepoint
comparison) are re-implemented structurally over `List Char` so that every
definition evaluates inside the kernel.  Nullable JS fields are modelled as
`Option`; absent booleans (`press_2026`, `bubble_exclude`) default to `false`,
mirroring JS truthiness.
-/

namespace Afib

/-- Model of JS `String.prototype.toLowerCase` (per-code-point, ASCII-faithful). -/
def jsToLower (s : String) : String := ⟨s.data.map Char.toLower⟩

/-- `charsStartWith needle hay`: `needle` is a prefix of `hay`. -/
def charsStartWith : List Char → List Char → Bool
  | [], _ => true
  | _ :: _, [] => false
  | a :: as, b :: bs => a == b && charsStartWith as bs

/-- `charsContain needle hay`: `needle` occurs as a contiguous run in `hay`. -/
def charsContain (needle : List Char) : List Char → Bool
  | [] => charsStartWith needle []
  | b :: bs => charsStartWith needle (b :: bs) || charsContain needle bs

/-- Model of JS `String.prototype.includes`. -/
def jsIncludes (hay needle : String) : Bool := charsContain needle.data hay.data

/-- src/app.js `normalize`: lower-cases a string. -/
def normalize (value : String) : String := jsToLower value

/-- src/app.js `textIncludes`: case-insensitive substring test. -/
def textIncludes (haystack needle : String) : Bool :=
  jsIncludes (normalize haystack) (normalize needle)

/-- Lexicographic order on char lists by code point, modelling JS string
comparison (`localeCompare` is modelled as code-point order). -/
def charsLE : List Char → List Char → Bool
  | [], _ => true
  | _ :: _, [] => false
  | a :: as, b :: bs =>
    if a.toNat < b.toNat then true
    else if b.toNat < a.toNat then false
    else charsLE as bs

/-- String order used to model the `localeCompare` sort in `uniq`. -/
def strLE (a b : String) : Bool := charsLE a.data b.data

/-- Numeric value of a digit string. -/
def digitsVal (cs : List Char) : Nat := cs.foldl (fun n c => n * 10 + (c.toNat - 48)) 0

/-- Parsed calendar date, the result of a successful `new Date(...)` parse. -/
structure JsDate where
  year : Nat
  month : Nat
  day : Nat
deriving DecidableEq

/-- Split a char list on a separator character (model of `String.split`). -/
def splitOnChar (sep : Char) : List Char → List (List Char)
  | [] => [[]]
  | c :: cs =>
    let rest := splitOnChar sep cs
    if c == sep then [] :: rest
    else
      match rest with
      | [] => [[c]]
      | r :: rs => (c :: r) :: rs

/-- A date component: exactly `len` digits. -/
def dateField (cs : List Char) (len : Nat) : Option Nat :=
  if cs.length == len && cs.all Char.isDigit then some (digitsVal cs) else none

/-- Model of JS `new Date(s)` restricted to the ISO calendar-date forms
`YYYY`, `YYYY-MM`, `YYYY-MM-DD` that the spec's `readout_date`
(ISO-date-string) uses; anything else is an invalid date (`none`). -/
def parseIsoDate (s : String) : Option JsDate :=
  match splitOnChar (Char.ofNat 45) s.data with
  | [y] => (dateField y 4).map (fun yy => ⟨yy, 1, 1⟩)
  | [y, m] =>
    match dateField y 4, dateField m 2 with
    | some yy, some mm => if 1 ≤ mm ∧ mm ≤ 12 then some ⟨yy, mm, 1⟩ else none
    | _, _ => none
  | [y, m, d] =>
    match dateField y 4, dateField m 2, dateField d 2 with
    | some yy, some mm, some dd =>
      if 1 ≤ mm ∧ mm ≤ 12 ∧ 1 ≤ dd ∧ dd ≤ 31 then some ⟨yy, mm, dd⟩ else none
    | _, _, _ => none
  | _ => none

/-- src/app.js `parseDate`: null for empty input, null when the host date
parse fails, the parsed date otherwise.  Total by construction: no exception
path exists. -/
def parseDate (dateStr : String) : Option JsDate :=
  if dateStr = "" then none else parseIsoDate dateStr

/-- Chronological sort key of a parsed date. -/
def JsDate.key (d : JsDate) : Nat := d.year * 10000 + d.month * 100 + d.day

/-- Short month name, for the locale-pinned success branch of `formatDate`. -/
def monthShort (m : Nat) : String :=
  match m with
  | 1 => "Jan" | 2 => "Feb" | 3 => "Mar" | 4 => "Apr" | 5 => "May" | 6 => "Jun"
  | 7 => "Jul" | 8 => "Aug" | 9 => "Sep" | 10 => "Oct" | 11 => "Nov" | 12 => "Dec"
  | _ => ""

/-- src/app.js `formatDate`: on parse failure returns the raw string, or an
em-dash placeholder when the raw string is empty (`dateStr || "—"`); on
success renders `<Mon> <day>, <year>` (locale pinned per spec §4.1). -/
def formatDate (dateStr : String) : String :=
  match parseDate dateStr with
  | none => if dateStr = "" then "—" else dateStr
  | some d => monthShort d.month ++ " " ++ toString d.day ++ ", " ++ toString d.year

/-- Trial record (spec §3); `readout`, `readout_date`, `registry_id` nullable. -/
structure Trial where
  name : String
  phase : String
  status : String
  readout : Option String
  readout_date : Option String
  registry_id : Option String
deriving DecidableEq

/-- Item record (spec §3).  `press_2026`/`bubble_exclude` model JS truthiness
of the possibly-absent flags; nullable strings are `Option`. -/
structure Item where
  name : String
  type : String
  category : Option String
  stage : Option String
  mechanism : String
  focus : String
  company : Option String
  latest_update : Option String
  tags : List String
  trials : List Trial
  notes : String
  press_2026 : Bool
  bubble_exclude : Bool
deriving DecidableEq

/-- src/app.js `CATEGORY_ORDER`. -/
def CATEGORY_ORDER : List String :=
  ["Rate Control", "Rhythm Control", "PFA Ablation", "Thermal Ablation", "Stroke Prevention"]

/-- src/app.js `STAGE_ORDER`. -/
def STAGE_ORDER : List String :=
  ["Preclinical", "Phase I", "Phase II", "Phase III", "Pivotal", "Approved", "Pre-registered"]

/-- src/app.js `mapCategory`: ordered substring rules over the lower-cased
`category` text, first match wins, `none` when nothing matches. -/
def mapCategory (item : Item) : Option String :=
  let category := jsToLower (item.category.getD "")
  if jsIncludes category "rate control" then some "Rate Control"
  else if jsIncludes category "rhythm control" || jsIncludes category "antiarrhythmic" then
    some "Rhythm Control"
  else if jsIncludes category "pfa" then some "PFA Ablation"
  else if jsIncludes category "rf" || jsIncludes category "cryo" || jsIncludes category "thermal" then
    some "Thermal Ablation"
  else if jsIncludes category "stroke prevention" || jsIncludes category "anticoagulant" ||
      jsIncludes category "fxi" || jsIncludes category "laa" then
    some "Stroke Prevention"
  else none

/-- src/app.js `mapStage`: ordered substring rules over the lower-cased
`stage` text, in the exact source order (note the source checks "phase i"
before "phase ii" and "phase iii"). -/
def mapStage (item : Item) : Option String :=
  let stage := jsToLower (item.stage.getD "")
  if jsIncludes stage "preclinical" || jsIncludes stage "ind" then some "Preclinical"
  else if jsIncludes stage "phase 1" || jsIncludes stage "phase i" then some "Phase I"
  else if jsIncludes stage "phase 2" || jsIncludes stage "phase ii" then some "Phase II"
  else if jsIncludes stage "phase 3" || jsIncludes stage "phase iii" then some "Phase III"
  else if jsIncludes stage "pivotal" then some "Pivotal"
  else if jsIncludes stage "approved" || jsIncludes stage "fda" || jsIncludes stage "ce mark" ||
      jsIncludes stage "nmpa" then
    some "Approved"
  else if jsIncludes stage "pre-registered" || jsIncludes stage "planned" || jsIncludes stage "ide" then
    some "Pre-registered"
  else none

/-- src/app.js `stagePriority` over the possibly-absent stage text
(`(stage || "")`); lower is higher priority. -/
def stagePriority (stage : Option String) : Nat :=
  let value := jsToLower (stage.getD "")
  if jsIncludes value "phase 3" || jsIncludes value "phase iii" then 1
  else if jsIncludes value "phase 2" || jsIncludes value "phase ii" then 2
  else if jsIncludes value "phase 1" || jsIncludes value "phase i" then 3
  else if jsIncludes value "pivotal" then 4
  else if jsIncludes value "preclinical" then 5
  else if jsIncludes value "approved" || jsIncludes value "fda" || jsIncludes value "ce mark" then 9
  else 6

/-- src/app.js `uniq`: distinct values, sorted (`localeCompare` modelled as
code-point order; dedup keeps one copy of each value, and only membership
and sortedness are observable downstream). -/
def uniq (arr : List String) : List String := (arr.dedup).mergeSort strLE

/-- Pure core of src/app.js `buildChips`: with a preferred canonical order the
chips are the canonical list filtered to the present values, else the values
themselves. -/
def chipValues (values : List String) : Option (List String) → List String
  | some ord => ord.filter (fun v => values.contains v)
  | none => values

/-- Category facet sequence produced by `buildFilters`/`buildChips`. -/
def categoryChips (items : List Item) : List String :=
  chipValues (uniq (items.filterMap mapCategory)) (some CATEGORY_ORDER)

/-- Stage facet sequence produced by `buildFilters`/`buildChips`. -/
def stageChips (items : List Item) : List String :=
  chipValues (uniq (items.filterMap mapStage)) (some STAGE_ORDER)

/-- Type facet sequence produced by `buildFilters`/`buildChips`. -/
def typeChips (items : List Item) : List String :=
  chipValues (uniq (items.map Item.type)) none

/-- The `readout_date` branch of the trial scan in `has2026Update`:
`trial.readout_date ? new Date(trial.readout_date).getFullYear() === 2026 : false`.
An unparseable date yields `NaN`, which never equals 2026, hence `false`. -/
def readoutDateYearIs2026 (t : Trial) : Bool :=
  match t.readout_date with
  | none => false
  | some d =>
    if d == "" then false
    else
      match parseIsoDate d with
      | some jd => jd.year == 2026
      | none => false

/-- Per-trial test inside src/app.js `has2026Update`. -/
def trialHas2026 (t : Trial) : Bool :=
  if t.readout.getD "" != "" && jsIncludes (t.readout.getD "") "2026" then true
  else readoutDateYearIs2026 t

/-- src/app.js `has2026Update`. -/
def has2026Update (item : Item) : Bool :=
  if item.bubble_exclude then false
  else if item.latest_update.getD "" != "" && jsIncludes (item.latest_update.getD "") "2026" then true
  else item.trials.any trialHas2026

/-- Derived update-feed entry (spec §3 UpdateEntry). -/
structure UpdateEntry where
  name : String
  update : String
  type : String
  press : Bool
  stage : String
deriving DecidableEq

/-- The map step of src/app.js `buildUpdateEntries`. -/
def toUpdateEntry (item : Item) : UpdateEntry :=
  { name := item.name
    update := if item.latest_update.getD "" != "" then item.latest_update.getD ""
              else "2026 update noted in trials"
    type := item.type
    press := item.press_2026
    stage := item.stage.getD "" }

/-- Total preorder realised by the comparator of src/app.js
`buildUpdateEntries`: press releases first, then ascending stage priority. -/
def updateLE (a b : UpdateEntry) : Bool :=
  if a.press != b.press then a.press
  else decide (stagePriority (some a.stage) ≤ stagePriority (some b.stage))

/-- The generic-drug-company exclusion filter of `buildUpdateEntries`
(`/generic/i.test(item.company || "")` modelled as a case-insensitive
substring test). -/
def dropGenericDrug (item : Item) : Bool :=
  !(item.type == "Drug" && jsIncludes (jsToLower (item.company.getD "")) "generic")

/-- The filtered and mapped entry list of `buildUpdateEntries` before sorting. -/
def updateCandidates (items : List Item) : List UpdateEntry :=
  (((items.filter dropGenericDrug).filter has2026Update).map toUpdateEntry)

/-- src/app.js `buildUpdateEntries`: filter, map, stable sort, truncate to 6.
JS `Array.prototype.sort` is stable (ES2019), modelled by `mergeSort`. -/
def buildUpdateEntries (items : List Item) : List UpdateEntry :=
  ((updateCandidates items).mergeSort updateLE).take 6

/-- The filter/search state (spec §9: threaded explicitly, sets as lists of
chip values). -/
structure Filters where
  category : List String
  stage : List String
  type : List String
deriving DecidableEq

/-- `Set.has` applied to a possibly-null mapped facet value: a null value is
never a member of a chip-value set. -/
def optMem (vals : List String) : Option String → Bool
  | some v => vals.contains v
  | none => false

/-- Model of JS `Array.prototype.join(" ")`. -/
def jsJoin (sep : String) : List String → String
  | [] => ""
  | [x] => x
  | x :: xs => x ++ sep ++ jsJoin sep xs

/-- The haystack of src/app.js `matchesFilters`: the fixed field set joined by
single spaces, nested trial fields rendered as `name status readout`. -/
def haystack (item : Item) : String :=
  jsJoin " "
    ([item.name, item.company.getD "", item.mechanism, item.focus, item.category.getD "",
      item.stage.getD "", item.type, item.latest_update.getD "", item.notes] ++
      item.tags ++
      item.trials.map (fun t => t.name ++ " " ++ t.status ++ " " ++ t.readout.getD ""))

/-- src/app.js `matchesFilters`, with the module-level filter/search state
passed explicitly. -/
def matchesFilters (f : Filters) (search : String) (item : Item) : Bool :=
  if f.category.length != 0 && !(optMem f.category (mapCategory item)) then false
  else if f.stage.length != 0 && !(optMem f.stage (mapStage item)) then false
  else if f.type.length != 0 && !(f.type.contains item.type) then false
  else if search == "" then true
  else textIncludes (haystack item) search

/-- Empty filter state: all three facet sets empty. -/
def emptyFilters : Filters := ⟨[], [], []⟩

/-- Derived readout-feed entry (spec §3 ReadoutEntry). -/
structure ReadoutEntry where
  item : String
  trial : String
  readout : String
  readout_date : Option String
deriving DecidableEq

/-- Modelled from the spec: the flatten step of `getUpcomingReadouts`
(spec §4.6), a function absent from src/app.js — for every item, for every
trial with a non-null `readout`, emit
`{item: item.name, trial: trial.name, readout, readout_date}`. -/
def readoutEntries (items : List Item) : List ReadoutEntry :=
  items.flatMap (fun i =>
    i.trials.filterMap (fun t =>
      t.readout.map (fun r =>
        { item := i.name, trial := t.name, readout := r, readout_date := t.readout_date })))

/-- Chronological key of a readout entry: `none` when `readout_date` is null
or unparseable. -/
def readoutKey (e : ReadoutEntry) : Option Nat :=
  match e.readout_date with
  | none => none
  | some s => (parseDate s).map JsDate.key

/-- Modelled from the spec: the sort policy of `getUpcomingReadouts`
(spec §4.6) — parseable dates ascending, dated before undated, two undated
entries ordered lexicographically by `readout` text. -/
def readoutLE (a b : ReadoutEntry) : Bool :=
  match readoutKey a, readoutKey b with
  | some x, some y => decide (x ≤ y)
  | some _, none => true
  | none, some _ => false
  | none, none => strLE a.readout b.readout

/-- Modelled from the spec: `getUpcomingReadouts` (spec §4.6), a function
absent from src/app.js — flatten, sort by the readout policy, truncate to 6. -/
def getUpcomingReadouts (items : List Item) : List ReadoutEntry :=
  ((readoutEntries items).mergeSort readoutLE).take 6

/-- The per-session state (spec §5/§9): immutable dataset plus UI filter and
search state, threaded explicitly through the derivation functions. -/
structure AppState where
  data : List Item
  filters : Filters
  search : String
deriving DecidableEq

/-- Facet derivation as a state transformer: the code reads the dataset and
performs no assignment, so the state passes through unchanged. -/
def computeFacetsS (s : AppState) : (List String × List String × List String) × AppState :=
  ((categoryChips s.data, stageChips s.data, typeChips s.data), s)

/-- Update-feed derivation for one item type as a state transformer
(src/app.js `init` calls `buildUpdateEntries` on the type-filtered items). -/
def computeUpdateFeedS (ty : String) (s : AppState) : List UpdateEntry × AppState :=
  (buildUpdateEntries (s.data.filter (fun i => i.type == ty)), s)

/-- Search/filter matching as a state transformer: reads `filters`/`search`
from the state, writes nothing. -/
def matchesS (item : Item) (s : AppState) : Bool × AppState :=
  (matchesFilters s.filters s.search item, s)

/-- The whitespace set trimmed by JS `String.prototype.trim` (space, tab,
line terminators, vertical tab, form feed, no-break space). -/
def isJsWs (c : Char) : Bool :=
  c == ' ' || c == Char.ofNat 9 || c == Char.ofNat 10 || c == Char.ofNat 13 ||
    c == Char.ofNat 11 || c == Char.ofNat 12 || c == Char.ofNat 160

/-- Model of JS `String.prototype.trim`. -/
def jsTrim (s : String) : String :=
  ⟨((s.data.dropWhile isJsWs).reverse.dropWhile isJsWs).reverse⟩

/-- The search interface of src/app.js `init`: the raw input value is trimmed
before it is stored as the search state. -/
def interfaceSearch (raw : String) : String := jsTrim raw

/-- The spec's inclusion condition for the update feed, stated in the spec's
own words (§4.5 steps 1–3) for comparison with the code's filter pipeline. -/
def specIncludesItem (i : Item) : Prop :=
  i.bubble_exclude = false ∧
  ¬(i.type = "Drug" ∧ jsIncludes (jsToLower (i.company.getD "")) "generic" = true) ∧
  (jsIncludes (i.latest_update.getD "") "2026" = true ∨
    (∃ t ∈ i.trials, jsIncludes (t.readout.getD "") "2026" = true) ∨
    (∃ t ∈ i.trials, ∃ d, t.readout_date = some d ∧
      ∃ jd, parseIsoDate d = some jd ∧ jd.year = 2026))

/-- The spec §8 example item: `{category:"Anticoagulant (FXI)", stage:"Phase III"}`. -/
def c1Item : Item :=
  { name := "Example", type := "Drug", category := some "Anticoagulant (FXI)",
    stage := some "Phase III", mechanism := "", focus := "", company := some "Acme",
    latest_update := none, tags := [], trials := [], notes := "",
    press_2026 := false, bubble_exclude := false }

/-- Concrete trial used by the C2 witness. -/
def w2Trial : Trial :=
  { name := "TRIAL-1", phase := "Phase III", status := "Recruiting",
    readout := some "Q4 2026", readout_date := some "2026-03-01", registry_id := none }

/-- Concrete item used by the C2 witness. -/
def w2Item : Item :=
  { name := "W2", type := "Device", category := some "PFA", stage := some "Pivotal",
    mechanism := "", focus := "", company := some "Acme", latest_update := none,
    tags := [], trials := [w2Trial], notes := "", press_2026 := false,
    bubble_exclude := false }

/-- Concrete item used by the C3 witness. -/
def w3Item : Item :=
  { name := "W3", type := "Device", category := some "PFA", stage := some "Pivotal",
    mechanism := "", focus := "", company := some "Acme",
    latest_update := some "CE mark expected 2026", tags := [], trials := [],
    notes := "", press_2026 := true, bubble_exclude := false }

/-- Concrete item used by the C4 witness. -/
def w4Item : Item :=
  { name := "W4", type := "Drug", category := some "Antiarrhythmic",
    stage := some "Phase 2", mechanism := "", focus := "", company := some "Acme",
    latest_update := some "Data expected 2026", tags := [], trials := [],
    notes := "", press_2026 := true, bubble_exclude := false }

/-- Concrete item used by the C9 witness: null category, empty stage. -/
def w9Item : Item :=
  { name := "W9", type := "Device", category := none, stage := some "",
    mechanism := "", focus := "", company := none, latest_update := none,
    tags := [], trials := [], notes := "", press_2026 := false,
    bubble_exclude := false }

/-- Concrete trial used by the C9 witness: unparseable `readout_date`. -/
def w9Trial : Trial :=
  { name := "T9", phase := "", status := "", readout := none,
    readout_date := some "13/2026", registry_id := none }

/-- Concrete item used by the C10 witness. -/
def w10Item : Item :=
  { name := "W10", type := "Device", category := some "Cryo balloon",
    stage := some "Approved", mechanism := "", focus := "", company := some "Acme",
    latest_update := none, tags := ["af"], trials := [], notes := "",
    press_2026 := false, bubble_exclude := false }

/-! ## Helper lemmas: the sort comparators are total preorders -/

theorem charsLE_total (x y : List Char) : (charsLE x y || charsLE y x) = true := by
  induction x generalizing y with
  | nil => simp [charsLE]
  | cons a as ih =>
    cases y with
    | nil => simp [charsLE]
    | cons b bs =>
      by_cases h1 : a.toNat < b.toNat
      · simp [charsLE, h1]
      · by_cases h2 : b.toNat < a.toNat
        · simp [charsLE, h1, h2]
        · simpa [charsLE, h1, h2] using ih bs

theorem charsLE_trans (x y z : List Char) (hxy : charsLE x y = true)
    (hyz : charsLE y z = true) : charsLE x z = true := by
  induction x generalizing y z with
  | nil => simp [charsLE]
  | cons a as ih =>
    cases y with
    | nil => simp [charsLE] at hxy
    | cons b bs =>
      cases z with
      | nil => simp [charsLE] at hyz
      | cons c cs =>
        simp only [charsLE] at hxy hyz ⊢
        split_ifs at hxy hyz ⊢ <;> first
          | rfl
          | omega
          | (exact ih bs cs hxy hyz)

theorem strLE_total (a b : String) : (strLE a b || strLE b a) = true :=
  charsLE_total a.data b.data

theorem strLE_trans (a b c : String) (h1 : strLE a b = true) (h2 : strLE b c = true) :
    strLE a c = true :=
  charsLE_trans a.data b.data c.data h1 h2

theorem updateLE_total (a b : UpdateEntry) : (updateLE a b || updateLE b a) = true := by
  unfold updateLE
  cases ha : a.press <;> cases hb : b.press <;> simp [ha, hb] <;> omega

theorem updateLE_trans (a b c : UpdateEntry) (h1 : updateLE a b = true)
    (h2 : updateLE b c = true) : updateLE a c = true := by
  unfold updateLE at h1 h2 ⊢
  cases ha : a.press <;> cases hb : b.press <;> cases hc : c.press <;>
    simp [ha, hb, hc] at h1 h2 ⊢ <;> omega

theorem readoutLE_total (a b : ReadoutEntry) : (readoutLE a b || readoutLE b a) = true := by
  unfold readoutLE
  cases ka : readoutKey a <;> cases kb : readoutKey b
  · simpa using strLE_total a.readout b.readout
  · simp
  · simp
  · simp; omega

theorem readoutLE_trans (a b c : ReadoutEntry) (h1 : readoutLE a b = true)
    (h2 : readoutLE b c = true) : readoutLE a c = true := by
  unfold readoutLE at h1 h2 ⊢
  cases ka : readoutKey a <;> cases kb : readoutKey b <;> cases kc : readoutKey c <;>
    simp_all
  · exact strLE_trans a.readout b.readout c.readout h1 h2
  · omega

theorem bubble_false_of_has2026 (i : Item) (h : has2026Update i = true) :
    i.bubble_exclude = false := by
  cases hb : i.bubble_exclude
  · rfl
  · simp [has2026Update, hb] at h

/-! ## Claim theorems -/

/-- C1: on the spec §8 example item `{category:"Anticoagulant (FXI)",
stage:"Phase III"}`, `mapCategory` returns "Stroke Prevention" and
`stagePriority("Phase III")` returns 1 as claimed, but `mapStage` returns
"Phase I", not "Phase III": the source checks the substring "phase i" before
"phase iii", and "phase iii" contains "phase i". -/
theorem c1_example_eval :
    mapCategory c1Item = some "Stroke Prevention" ∧
    stagePriority (some "Phase III") = 1 ∧
    mapStage c1Item = some "Phase I" ∧
    mapStage c1Item ≠ some "Phase III" := by decide

/-- C5: for every item list, the category and stage facet sequences are
subsequences of `CATEGORY_ORDER` / `STAGE_ORDER` and contain no duplicates. -/
theorem c5_facet_subsequences (items : List Item) :
    (categoryChips items).Sublist CATEGORY_ORDER ∧ (categoryChips items).Nodup ∧
    (stageChips items).Sublist STAGE_ORDER ∧ (stageChips items).Nodup := by
  refine ⟨List.filter_sublist _, ?_, List.filter_sublist _, ?_⟩
  · exact List.Nodup.filter _ (by decide : CATEGORY_ORDER.Nodup)
  · exact List.Nodup.filter _ (by decide : STAGE_ORDER.Nodup)

/-- C6: with all three facet-filter sets empty and empty search text, the
search/filter predicate accepts every item. -/
theorem c6_empty_state_passes (item : Item) :
    matchesFilters emptyFilters "" item = true := rfl

/-- C8: the derivation functions, embedded as explicit state transformers,
are deterministic and side-effect free: a second call on the state returned
by the first yields the same output, and the state (in particular the
dataset) is returned unchanged. -/
theorem c8_derivations_pure (s : AppState) (ty : String) (item : Item) :
    (computeFacetsS ((computeFacetsS s).2)).1 = (computeFacetsS s).1 ∧
    (computeFacetsS s).2 = s ∧
    (computeUpdateFeedS ty ((computeUpdateFeedS ty s).2)).1 = (computeUpdateFeedS ty s).1 ∧
    (computeUpdateFeedS ty s).2 = s ∧
    (matchesS item ((matchesS item s).2)).1 = (matchesS item s).1 ∧
    (matchesS item s).2 = s ∧
    ((computeFacetsS s).2).data = s.data :=
  ⟨rfl, rfl, rfl, rfl, rfl, rfl, rfl⟩

/-- C7: `parseDate` returns null on empty input (and is total by
construction), and when the parse fails `formatDate` returns the raw string
verbatim, or the em-dash placeholder when the raw string is empty. -/
theorem c7_date_fallbacks (s : String) :
    parseDate "" = none ∧
    (parseDate s = none → formatDate s = if s = "" then "—" else s) := by
  refine ⟨by decide, fun h => ?_⟩
  simp only [formatDate, h]

/-- C7 witness: concrete unparseable and empty inputs. -/
theorem c7_date_fallbacks_witness :
    formatDate "Q4 2026" = "Q4 2026" ∧ formatDate "" = "—" := by
  constructor
  · simpa using (c7_date_fallbacks "Q4 2026").2 (by decide)
  · simpa using (c7_date_fallbacks "").2 (by decide)

/-- C2: `getUpcomingReadouts` (modelled from spec §4.6) returns at most 6
entries; its output is pairwise ordered by the readout policy (parseable
dates ascending, dated before undated, undated pairs lexicographic by
readout text); the sort permutes the flattened entries, and the flatten step
emits an entry for every trial with a non-null readout. -/
theorem c2_upcoming_readouts (items : List Item) :
    (getUpcomingReadouts items).length ≤ 6 ∧
    List.Pairwise (fun a b => readoutLE a b = true) (getUpcomingReadouts items) ∧
    ((readoutEntries items).mergeSort readoutLE).Perm (readoutEntries items) ∧
    (∀ i ∈ items, ∀ t ∈ i.trials, ∀ r, t.readout = some r →
      ({ item := i.name, trial := t.name, readout := r,
         readout_date := t.readout_date } : ReadoutEntry) ∈ readoutEntries items) := by
  refine ⟨?_, ?_, List.mergeSort_perm _ _, ?_⟩
  · simp [getUpcomingReadouts, List.length_take]
  · exact List.Pairwise.sublist (List.take_sublist _ _)
      (List.sorted_mergeSort readoutLE_trans readoutLE_total _)
  · intro i hi t ht r hr
    unfold readoutEntries
    rw [List.mem_flatMap]
    refine ⟨i, hi, List.mem_filterMap.mpr ⟨t, ht, ?_⟩⟩
    rw [hr]
    rfl

/-- C2 witness: a concrete one-trial dataset. -/
theorem c2_upcoming_readouts_witness :
    (getUpcomingReadouts [w2Item]).length ≤ 6 ∧
    ({ item := "W2", trial := "TRIAL-1", readout := "Q4 2026",
       readout_date := some "2026-03-01" } : ReadoutEntry) ∈ readoutEntries [w2Item] := by
  have h := c2_upcoming_readouts [w2Item]
  exact ⟨h.1, h.2.2.2 w2Item (by decide) w2Trial (by decide) "Q4 2026" rfl⟩

/-- C3: `buildUpdateEntries` returns at most 6 entries, pairwise ordered by
(press desc, stagePriority asc); every output entry is derived from an input
item that is not flagged `bubble_exclude`; and the stable sort keeps the
original relative order of entries with equal press flag and equal stage
priority. -/
theorem c3_update_feed (items : List Item) :
    (buildUpdateEntries items).length ≤ 6 ∧
    List.Pairwise (fun a b => updateLE a b = true) (buildUpdateEntries items) ∧
    (∀ e ∈ buildUpdateEntries items,
      ∃ i ∈ items, i.bubble_exclude = false ∧ e = toUpdateEntry i) ∧
    (∀ a b : UpdateEntry, a.press = b.press →
      stagePriority (some a.stage) = stagePriority (some b.stage) →
      [a, b].Sublist (updateCandidates items) →
      [a, b].Sublist ((updateCandidates items).mergeSort updateLE)) := by
  refine ⟨?_, ?_, ?_, ?_⟩
  · simp [buildUpdateEntries, List.length_take]
  · exact List.Pairwise.sublist (List.take_sublist _ _)
      (List.sorted_mergeSort updateLE_trans updateLE_total _)
  · intro e he
    have h1 : e ∈ (updateCandidates items).mergeSort updateLE :=
      (List.take_sublist _ _).subset he
    rw [List.mem_mergeSort] at h1
    unfold updateCandidates at h1
    obtain ⟨i, hi, hie⟩ := List.mem_map.mp h1
    obtain ⟨hi2, h2026⟩ := List.mem_filter.mp hi
    obtain ⟨hi3, _⟩ := List.mem_filter.mp hi2
    exact ⟨i, hi3, bubble_false_of_has2026 i h2026, hie.symm⟩
  · intro a b hp hs hsub
    refine List.pair_sublist_mergeSort updateLE_trans updateLE_total ?_ hsub
    simp [updateLE, hp, hs]

/-- C3 witness: a concrete one-item dataset whose single entry survives. -/
theorem c3_update_feed_witness :
    (buildUpdateEntries [w3Item]).length ≤ 6 ∧
    (∃ i ∈ [w3Item], i.bubble_exclude = false ∧ toUpdateEntry w3Item = toUpdateEntry i) := by
  have h := c3_update_feed [w3Item]
  refine ⟨h.1, h.2.2.1 (toUpdateEntry w3Item) ?_⟩
  have h1 : updateCandidates [w3Item] = [toUpdateEntry w3Item] := by decide
  rw [buildUpdateEntries, h1, List.mergeSort_singleton]
  simp

/-- C9: `mapCategory` and `mapStage` return null on a null or empty
category/stage field, `stagePriority` returns 6 there, and an unparseable
`readout_date` makes the year-2026 test false for that trial; all four
functions are total by construction. -/
theorem c9_null_totality (item : Item) (t : Trial) (s : String)
    (hcat : item.category = none ∨ item.category = some "")
    (hstage : item.stage = none ∨ item.stage = some "")
    (hparse : parseIsoDate s = none) :
    mapCategory item = none ∧ mapStage item = none ∧
    stagePriority none = 6 ∧ stagePriority (some "") = 6 ∧
    (t.readout_date = some s → readoutDateYearIs2026 t = false) := by
  refine ⟨?_, ?_, by decide, by decide, ?_⟩
  · rcases hcat with h | h <;> simp only [mapCategory, h] <;> decide
  · rcases hstage with h | h <;> simp only [mapStage, h] <;> decide
  · intro hd
    simp only [readoutDateYearIs2026, hd, hparse]
    split <;> rfl

/-- C9 witness: null category, empty stage, unparseable readout date. -/
theorem c9_null_totality_witness :
    mapCategory w9Item = none ∧ mapStage w9Item = none ∧
    stagePriority none = 6 ∧ stagePriority (some "") = 6 ∧
    readoutDateYearIs2026 w9Trial = false := by
  have h := c9_null_totality w9Item w9Trial "13/2026" (Or.inl rfl) (Or.inr rfl) (by decide)
  exact ⟨h.1, h.2.1, h.2.2.1, h.2.2.2.1, h.2.2.2.2 rfl⟩

/-- C10: the public interface trims the search text, so a whitespace-only
search behaves exactly like the empty search on every filter state and item. -/
theorem c10_whitespace_search (raw : String) (hws : raw.data.all isJsWs = true)
    (f : Filters) (item : Item) :
    matchesFilters f (interfaceSearch raw) item = matchesFilters f "" item := by
  have h1 : raw.data.dropWhile isJsWs = [] :=
    List.dropWhile_eq_nil_iff.mpr (by simpa [List.all_eq_true] using hws)
  have ht : interfaceSearch raw = "" := by
    unfold interfaceSearch jsTrim
    rw [h1]
    rfl
  rw [ht]

/-- C10 witness: a concrete whitespace-only search string. -/
theorem c10_whitespace_search_witness :
    matchesFilters emptyFilters (interfaceSearch "  ") w10Item =
      matchesFilters emptyFilters "" w10Item :=
  c10_whitespace_search "  " (by decide) emptyFilters w10Item

/-- C4: an item passes the update-feed filter pipeline (and so contributes an
entry before truncation) iff it is not flagged `bubble_exclude`, is not a
Drug item whose company contains "generic" case-insensitively, and has a
2026 update via `latest_update`, a trial readout text, or a trial
`readout_date` parsing to year 2026. -/
theorem c4_inclusion_iff :
    (∀ i : Item, (dropGenericDrug i && has2026Update i) = true ↔ specIncludesItem i) ∧
    (∀ items : List Item,
      updateCandidates items =
        (items.filter (fun i => dropGenericDrug i && has2026Update i)).map toUpdateEntry) := by
  constructor
  · intro i
    constructor
    · intro h
      rw [Bool.and_eq_true] at h
      obtain ⟨hdrop, h2026⟩ := h
      have hb : i.bubble_exclude = false := bubble_false_of_has2026 i h2026
      refine ⟨hb, ?_, ?_⟩
      · rintro ⟨hty, hgen⟩
        rw [dropGenericDrug] at hdrop
        simp [hty, hgen] at hdrop
      · simp only [has2026Update, hb] at h2026
        rw [if_neg (by simp)] at h2026
        by_cases hl : (i.latest_update.getD "" != "" &&
            jsIncludes (i.latest_update.getD "") "2026") = true
        · exact Or.inl (Bool.and_eq_true _ _ |>.mp hl).2
        · rw [if_neg hl, List.any_eq_true] at h2026
          obtain ⟨t, ht, htr⟩ := h2026
          unfold trialHas2026 at htr
          by_cases hg : (t.readout.getD "" != "" &&
              jsIncludes (t.readout.getD "") "2026") = true
          · exact Or.inr (Or.inl ⟨t, ht, (Bool.and_eq_true _ _ |>.mp hg).2⟩)
          · rw [if_neg hg] at htr
            unfold readoutDateYearIs2026 at htr
            cases hd : t.readout_date with
            | none => rw [hd] at htr; cases htr
            | some d =>
              rw [hd] at htr
              by_cases he : d = ""
              · simp [he] at htr
              · cases hp : parseIsoDate d with
                | none => simp [he, hp] at htr
                | some jd =>
                  simp [he, hp] at htr
                  exact Or.inr (Or.inr ⟨t, ht, d, hd, jd, hp, htr⟩)
    · rintro ⟨hb, hng, hdis⟩
      rw [Bool.and_eq_true]
      constructor
      · rw [dropGenericDrug]
        by_cases hty : i.type = "Drug"
        · by_cases hgen : jsIncludes (jsToLower (i.company.getD "")) "generic" = true
          · exact absurd ⟨hty, hgen⟩ hng
          · simp [hty, hgen]
        · simp [hty]
      · simp only [has2026Update, hb]
        rw [if_neg (by simp)]
        rcases hdis with hlat | ⟨t, ht, hr⟩ | ⟨t, ht, d, hd, jd, hp, hy⟩
        · have hne : i.latest_update.getD "" ≠ "" := by
            intro h0
            rw [h0] at hlat
            exact absurd hlat (by decide)
          simp [hlat, hne]
        · have hne : t.readout.getD "" ≠ "" := by
            intro h0
            rw [h0] at hr
            exact absurd hr (by decide)
          have hany : i.trials.any trialHas2026 = true :=
            List.any_eq_true.mpr ⟨t, ht, by simp [trialHas2026, hr, hne]⟩
          split
          · rfl
          · exact hany
        · have hde : d ≠ "" := by
            intro h0
            rw [h0, (by decide : parseIsoDate "" = none)] at hp
            cases hp
          have hdy : readoutDateYearIs2026 t = true := by
            unfold readoutDateYearIs2026
            rw [hd]
            simp [hde, hp, hy]
          have hany : i.trials.any trialHas2026 = true := by
            refine List.any_eq_true.mpr ⟨t, ht, ?_⟩
            unfold trialHas2026
            split
            · rfl
            · exact hdy
          split
          · rfl
          · exact hany
  · intro items
    unfold updateCandidates
    rw [List.filter_filter]
    congr 1
    exact List.filter_congr (fun a _ => Bool.and_comm _ _)

/-- C4 witness: a concrete item satisfying the spec's inclusion condition. -/
theorem c4_inclusion_iff_witness : specIncludesItem w4Item :=
  (c4_inclusion_iff.1 w4Item).mp (by decide)

end Afib
